import Mathlib

/-!
Verification development for the scheduling and coordination engine of the
DiamondScannerSim repository.

The main implementation verified here is Ver3/RealisticTwoClawSim
(scanner.py, crane.py, simulation.py, config.py); the Ver2/TwoClawSim
dispatcher is consulted where noted.  Python floats are modelled by exact
rationals; matplotlib/rendering state (patches, labels, zorder, the hoist
animation) is omitted because it feeds nothing back into the simulation
logic.  Console printing has no state effect and is likewise omitted; where
a print is the only observable effect of a branch this is said in a comment.
-/

namespace DiamondSim

/-! ## Configuration constants (config.py)

All lengths in mm, times in seconds, exactly as in config.py. -/

/-- config.FPS (config.py:86). -/
def FPS : ℚ := 60

/-- config.DT (config.py:87): the fixed simulation tick. -/
def DT : ℚ := 1 / FPS

/-- config.SIM_SPEED_MULTIPLIER (config.py:88). -/
def SIM_SPEED_MULTIPLIER : ℚ := 1

/-- config.VMAX_CLAW_Z (config.py:103). -/
def VMAX_CLAW_Z : ℚ := 100

/-- config.A_CLAW_Z (config.py:104). -/
def A_CLAW_Z : ℚ := 300

/-- config.distance_with_time_mm (config.py:16-48) on exact rationals, for
arguments with positive acceleration and vmax at least v0 (the source raises
ValueError otherwise; it is only ever called with constants that pass the
checks). -/
def distance_with_time_mm (v0 vmax a t : ℚ) : ℚ :=
  let v_t := v0 + a * t
  if v_t ≤ vmax then
    v0 * t + (1/2) * a * t^2
  else
    let t_acc := (vmax - v0) / a
    let s_acc := v0 * t_acc + (1/2) * a * t_acc^2
    let t_const := t - t_acc
    s_acc + vmax * t_const

/-- config.D_Z (config.py:105): rail-to-drop-point vertical distance. -/
def D_Z : ℚ := distance_with_time_mm 0 VMAX_CLAW_Z A_CLAW_Z (9/5)

/-- The accelerate-to-vmax branch of config.timeToTravel (config.py:67-72).
The first branch of timeToTravel (distance too short to reach vmax,
config.py:59-66) computes a real square root and is exercised by the
simulation only inside config.calculate_2d_travel_time, which this
development keeps abstract (see TravelTime); the constant T_Z below is the
one fixed value the simulation derives through timeToTravel, and lemma
T_Z_takes_vmax_branch shows it takes this branch. -/
def timeToTravelVmax (D v_init v_max A : ℚ) : ℚ :=
  let s_vmax := (v_max^2 - v_init^2) / (2 * A)
  let t_accel := (v_max - v_init) / A
  let s_const := D - s_vmax
  t_accel + s_const / v_max

/-- config.T_Z (config.py:108): duration of one lowering (or raising) phase. -/
def T_Z : ℚ := timeToTravelVmax D_Z 0 VMAX_CLAW_Z A_CLAW_Z

/-- config.D_CLAW_SAFE_DISTANCE (config.py:111): minimum crane separation. -/
def D_CLAW_SAFE_DISTANCE : ℚ := 80

/-- config.T_SCAN (config.py:117). -/
def T_SCAN : ℚ := 18

/-- config.SCANNER_Y (config.py:122). -/
def SCANNER_Y : ℚ := 60

/-- config.SCANNER_1_X (config.py:124). -/
def SCANNER_1_X : ℚ := -178

/-- config.SCANNER_2_X (config.py:125). -/
def SCANNER_2_X : ℚ := 178

/-- config.N_BOXES (config.py:136). -/
def N_BOXES : ℕ := 8

/-- config.BLUE_CRANE_HOME_X (config.py:158). -/
def BLUE_CRANE_HOME_X : ℚ := -320

/-- config.BLUE_CRANE_HOME_Y (config.py:159). -/
def BLUE_CRANE_HOME_Y : ℚ := SCANNER_Y

/-- config.RED_CRANE_HOME_X (config.py:160). -/
def RED_CRANE_HOME_X : ℚ := 320

/-- config.RED_CRANE_HOME_Y (config.py:161). -/
def RED_CRANE_HOME_Y : ℚ := SCANNER_Y

/-- config.PICKUP_X (config.py:171). -/
def PICKUP_X : ℚ := 0

/-- config.PICKUP_Y (config.py:172). -/
def PICKUP_Y : ℚ := 0

/-- config.get_pickup_position (config.py:221-223). -/
def get_pickup_position : ℚ × ℚ := (PICKUP_X, PICKUP_Y)

/-- config.get_scanner_positions (config.py:196-201). -/
def get_scanner_positions : List (ℚ × ℚ) :=
  [(SCANNER_1_X, SCANNER_Y), (SCANNER_2_X, SCANNER_Y)]

/-- config.get_end_box_positions (config.py:203-211): the 2 x 4 grid; spacing
BOX_SPACING_X = 40, BOX_SPACING_Y = 40 from the constants at config.py:139-146,
rows bottom-to-top as the source loops produce them. -/
def get_end_box_positions : List (ℚ × ℚ) :=
  [(-60, 80), (-20, 80), (20, 80), (60, 80),
   (-60, 120), (-20, 120), (20, 120), (60, 120)]

/-- Abstract travel-time oracle modelling config.calculate_2d_travel_time
(config.py:225-240).  The source computes, per axis, a bounded-acceleration
travel time that involves a real square root for short distances, over IEEE
floats; the exact value is irrelevant to every claim settled here, so the
whole function (x0, y0, x1, y1) -> seconds is kept as a parameter, and every
theorem about the stepping functions holds for an arbitrary instance. -/
def TravelTime : Type := ℚ → ℚ → ℚ → ℚ → ℚ

/-- A constant instance of the travel-time oracle, used only to instantiate
closed counterexample and witness statements (whose asserted facts are
independent of the oracle, as the accompanying universally-quantified
theorems show where applicable). -/
def ttConst : TravelTime := fun _ _ _ _ => 1

/-! ## Stations (Ver3/RealisticTwoClawSim/scanner.py, class DScanner) -/

/-- The scanner's state strings "empty" / "scanning" / "ready"
(scanner.py:29-32,45). -/
inductive ScannerState
  | empty
  | scanning
  | ready
deriving DecidableEq

/-- Class DScanner (scanner.py:24-187): one processing station.  The
matplotlib diamond patch and state label are rendering-only and omitted. -/
structure DScanner where
  x_pos : ℚ
  y_pos : ℚ
  scans_done : ℕ
  state : ScannerState
  ready_time : Option ℚ
  timer : ℚ
  target_box_id : Option ℕ
  scan_time : ℚ
deriving DecidableEq

/-- DScanner.__init__ (scanner.py:34-56). -/
def DScanner.init (x y : ℚ) : DScanner :=
  { x_pos := x, y_pos := y, scans_done := 0, state := .empty, ready_time := none,
    timer := 0, target_box_id := none, scan_time := T_SCAN }

/-- DScanner.get_drop_zone_position (scanner.py:62-69). -/
def DScanner.get_drop_zone_position (s : DScanner) : ℚ × ℚ := (s.x_pos, s.y_pos)

/-- DScanner.scan (scanner.py:71-88).  The argument draw models the value
produced by random.randint(0, N_BOXES - 1) at scanner.py:88: the Python
random module's hidden global state is made an explicit input.  In the
wrong state the source prints a diagnostic and returns with no state
change (scanner.py:78-80). -/
def DScanner.scan (draw : ℕ) (s : DScanner) : DScanner :=
  if s.state ≠ .empty then s
  else
    { s with state := .scanning, timer := s.scan_time, target_box_id := some draw }

/-- DScanner.update (scanner.py:90-103). -/
def DScanner.update (dt current_time : ℚ) (s : DScanner) : DScanner :=
  if s.state = .scanning then
    let t := s.timer - dt
    if t ≤ 0 then
      { s with timer := t, state := .ready, ready_time := some current_time }
    else
      { s with timer := t }
  else s

/-- DScanner.pickup (scanner.py:105-127).  Returns the Python return value
paired with the new station state.  In the wrong state the source prints a
diagnostic and returns the int 0 with no state change (scanner.py:111-113);
on success it returns target_box_id (an int or None).  Both fit in
Option Nat, with the wrong-state 0 rendered as some 0 exactly as Python's
int 0. -/
def DScanner.pickup (s : DScanner) : Option ℕ × DScanner :=
  if s.state ≠ .ready then (some 0, s)
  else
    (s.target_box_id,
     { s with state := .empty, ready_time := none, target_box_id := none,
              scans_done := s.scans_done + 1 })

/-- DScanner.get_target_box (scanner.py:129-135). -/
def DScanner.get_target_box (s : DScanner) : Option ℕ := s.target_box_id

/-- DScanner.reset (scanner.py:180-186). -/
def DScanner.reset (s : DScanner) : DScanner :=
  { s with state := .empty, ready_time := none, timer := 0, target_box_id := none }

/-! ## Sinks (class Box)

Ver3's endBox.py module is imported by simulation.py but is not present
under src/.  Ver3.5/RealisticDualClawSim/endBox.py was, per its own module
docstring, "Copied from Ver3 - works identically", and the spec describes a
sink as a passive counter ("delivered count, monotonically increasing; no
state machine"); the logical part of Box below is taken from that copy.
The delivered_diamonds patch list is rendering-only and omitted. -/

/-- Class Box (endBox.py, via the Ver3.5 copy): one sink. -/
structure Box where
  box_id : ℕ
  x_pos : ℚ
  y_pos : ℚ
  diamond_count : ℕ
deriving DecidableEq

/-- Box.add_diamond: increments the delivered count (the returned matplotlib
patch is rendering-only). -/
def Box.add_diamond (b : Box) : Box := { b with diamond_count := b.diamond_count + 1 }

/-- Box.get_position. -/
def Box.get_position (b : Box) : ℚ × ℚ := (b.x_pos, b.y_pos)

/-- Box.get_count. -/
def Box.get_count (b : Box) : ℕ := b.diamond_count

/-- Box.reset. -/
def Box.reset (b : Box) : Box := { b with diamond_count := 0 }

/-! ## Cranes (Ver3/RealisticTwoClawSim/crane.py)

The two agents.  Class Crane is the shared base; BlueCrane (loader) and
RedCrane (unloader) add their own fields, which one Lean structure holds
together (a field specific to one crane is simply never touched by the
other's step function, as in the source).

Omitted fields, with the source reason: ax / color strings / crane_rect /
diamond patches / crane_width / crane_height / rail_y / top_y / z and the
set_hoist calls (rendering only; color is represented by the Bool field
blue, which is all has_priority_over and is_in_deadlock_with inspect);
vmax_x/a_x/vmax_y/a_y/vmax_z/a_z (read only inside
config.calculate_2d_travel_time, which is the abstract TravelTime oracle
here); time_under_scanner and the base-class departure_time (written by
init/reset, never read by Ver3 logic); start_diamond (rendering). -/

/-- The crane state strings of crane.py (both subclasses' states). -/
inductive CraneState
  | WAIT
  | MOVE_TO_START
  | PICK_AT_START
  | MOVE_TO_SCANNER
  | DROP_AT_SCANNER
  | RETURN_TO_START
  | MOVE_OUT_OF_WAY_AFTER_RIGHT_LOAD
  | RETURN_TO_HOME_WITH_DIAMOND
  | WAIT_AT_HOME
  | MOVE_TO_HOME_EMPTY
  | LOWER_FOR_PICKUP
  | PICK_AT_SCANNER
  | MOVE_OUT_OF_WAY_AFTER_RIGHT_PICKUP
  | WAIT_FOR_BLUE_TO_LOAD_RIGHT
  | MOVE_TO_BOX_THEN_RIGHT_SCANNER
  | DROP_AT_BOX_THEN_RIGHT_SCANNER
  | MOVE_TO_BOX
  | DROP_AT_BOX
  | RETURN_HOME
deriving DecidableEq

/-- The pick/drop phase strings "LOWER" / "RAISE" (crane.py:99-100). -/
inductive Phase
  | LOWER
  | RAISE
deriving DecidableEq

/-- Classes Crane / BlueCrane / RedCrane (crane.py).  moveTrack models the
triple of dynamic attributes _move_start_x, _move_start_y, _move_total_time
(none = the attributes are absent, i.e. hasattr is False). -/
structure Crane where
  x : ℚ
  y : ℚ
  initial_x : ℚ
  initial_y : ℚ
  safe_distance : ℚ
  lower_time : ℚ
  raise_time : ℚ
  state : CraneState
  action_timer : ℚ
  has_diamond : Bool
  target_i : Option ℕ
  t_elapsed : ℚ
  pick_phase : Option Phase
  drop_phase : Option Phase
  moveTrack : Option (ℚ × ℚ × ℚ)
  blue : Bool
  scanners_loaded : List ℕ
  waiting_at_home : Bool
  waiting_for_red_to_clear : Bool
  target_box : Option ℕ
  departure_times : List (ℕ × ℚ)
  from_rightmost : Bool
deriving DecidableEq

/-- Crane.would_collide_with (crane.py:246-273) with the default
safe_distance argument (the only way the simulation calls it): an X-axis
distance check.  The collision diagnostic print at crane.py:266-271 has no
state effect. -/
def Crane.would_collide_with (c o : Crane) : Bool :=
  decide (|c.x - o.x| < c.safe_distance)

/-- Crane.can_move_to_x (crane.py:279-295) with the default safe_distance. -/
def Crane.can_move_to_x (c : Crane) (target_x : ℚ) (o : Crane) : Bool :=
  decide (c.safe_distance ≤ |target_x - o.x|)

/-- The movement_states list of crane.py:155-160 and crane.py:322-327. -/
def isMovementState : CraneState → Bool
  | .MOVE_TO_SCANNER => true
  | .MOVE_TO_BOX => true
  | .RETURN_HOME => true
  | .MOVE_TO_START => true
  | .RETURN_TO_START => true
  | .RETURN_TO_HOME_WITH_DIAMOND => true
  | .MOVE_OUT_OF_WAY_AFTER_RIGHT_PICKUP => true
  | .MOVE_OUT_OF_WAY_AFTER_RIGHT_LOAD => true
  | .MOVE_TO_BOX_THEN_RIGHT_SCANNER => true
  | .MOVE_TO_HOME_EMPTY => true
  | _ => false

/-- The blue_working_states list of crane.py:337-343. -/
def isBlueWorkingState : CraneState → Bool
  | .PICK_AT_START => true
  | .DROP_AT_SCANNER => true
  | .MOVE_TO_SCANNER => true
  | .RETURN_TO_START => true
  | .RETURN_TO_HOME_WITH_DIAMOND => true
  | _ => false

/-- Crane.is_in_deadlock_with (crane.py:307-347).  The check
other_crane.color == the blue hex string is the field o.blue here. -/
def Crane.is_in_deadlock_with (c o : Crane) : Bool :=
  if !c.would_collide_with o then false
  else
    let both_moving := isMovementState c.state && isMovementState o.state
    if !both_moving then false
    else if o.blue && isBlueWorkingState o.state then false
    else both_moving

/-- Crane.has_priority_over (crane.py:349-372): the deadlock priority rule.
Rule 1: a crane without a diamond beats one with a diamond; rule 2: on equal
diamond status the blue crane wins. -/
def Crane.has_priority_over (c o : Crane) : Bool :=
  if c.has_diamond && !o.has_diamond then false
  else if !c.has_diamond && o.has_diamond then true
  else c.blue

/-- Crane.should_yield_to (crane.py:374-405).  Outside a deadlock it is the
plain collision check; in a deadlock the crane yields iff it lacks priority.
The yield-logging prints have no state effect. -/
def Crane.should_yield_to (c o : Crane) : Bool :=
  if !c.is_in_deadlock_with o then c.would_collide_with o
  else !c.has_priority_over o

/-- Squared 2D distance.  Crane.distance_to (crane.py:297-305) and
BlueCrane.distance_to_position (crane.py:521-535) take a real square root;
both are used by the simulation logic only as min-selection keys
(crane.py:515, crane.py:1081), and the square root is strictly monotone on
nonnegatives, so the squared distance selects exactly the same minimizer and
is what this model uses as the key. -/
def distSq (x0 y0 x1 y1 : ℚ) : ℚ := (x0 - x1)^2 + (y0 - y1)^2

/-- Python's builtin min(xs, key=k) on a nonempty list: the first element
whose key is minimal (later elements replace the champion only on a strictly
smaller key). -/
def minByKey (key : ℕ → ℚ) : List ℕ → Option ℕ
  | [] => none
  | i :: rest => some (rest.foldl (fun best j => if key j < key best then j else best) i)

/-- Indices of scanners in a given state, in list order: the source's
enumerate-filter comprehensions (crane.py:509, crane.py:1076, crane.py:959,
crane.py:1145), with the start index as an accumulating parameter. -/
def idxInState (target : ScannerState) : ℕ → List DScanner → List ℕ
  | _, [] => []
  | i, s :: rest =>
    if s.state = target then i :: idxInState target (i + 1) rest
    else idxInState target (i + 1) rest

/-- Key function for the scanner-selection minima: the (squared, see distSq)
distance from a fixed point to scanner i's drop-zone position.  Indices
produced by idxInState are always in range; out-of-range junk is 0. -/
def scannerKey (fx fy : ℚ) (scanners : List DScanner) (i : ℕ) : ℚ :=
  match scanners[i]? with
  | some s => distSq fx fy s.x_pos s.y_pos
  | none => 0

/-- BlueCrane.nearest_empty_scanner (crane.py:507-519): min by distance from
the HOME position (initial_x, initial_y), not the current position. -/
def Crane.nearest_empty_scanner (c : Crane) (scanners : List DScanner) : Option ℕ :=
  minByKey (scannerKey c.initial_x c.initial_y scanners) (idxInState .empty 0 scanners)

/-- RedCrane.nearest_ready_scanner (crane.py:1074-1081): min by distance from
the current position. -/
def Crane.nearest_ready_scanner (c : Crane) (scanners : List DScanner) : Option ℕ :=
  minByKey (scannerKey c.x c.y scanners) (idxInState .ready 0 scanners)

/-- The departure_times dict read self.departure_times.get(i)
(crane.py:1109). -/
def lookupDep : List (ℕ × ℚ) → ℕ → Option ℚ
  | [], _ => none
  | (k, v) :: rest, i => if k = i then some v else lookupDep rest i

/-- The departure_times dict write self.departure_times[i] = v
(crane.py:1111). -/
def setDep : List (ℕ × ℚ) → ℕ → ℚ → List (ℕ × ℚ)
  | [], i, v => [(i, v)]
  | (k, w) :: rest, i, v =>
    if k = i then (i, v) :: rest else (k, w) :: setDep rest i v

/-- The departure_times dict removal self.departure_times.pop(i, None)
(crane.py:1138). -/
def popDep (l : List (ℕ × ℚ)) (i : ℕ) : List (ℕ × ℚ) :=
  l.filter (fun p => p.1 ≠ i)

/-- Crane.reset (crane.py:407-431): the base-class part shared by both
subclasses (position back to home, WAIT, everything cleared, movement
tracking attributes deleted). -/
def Crane.reset_base (c : Crane) : Crane :=
  { c with x := c.initial_x, y := c.initial_y, state := .WAIT, action_timer := 0,
           has_diamond := false, target_i := none, t_elapsed := 0,
           pick_phase := none, drop_phase := none, moveTrack := none }

/-- BlueCrane.reset (crane.py:486-505): base reset, then back to
MOVE_TO_START with a fresh travel time to the pickup position and cleared
coordination flags. -/
def Crane.reset_blue (tt : TravelTime) (c : Crane) : Crane :=
  let c := c.reset_base
  { c with state := .MOVE_TO_START,
           action_timer := tt c.x c.y PICKUP_X PICKUP_Y,
           scanners_loaded := [], waiting_at_home := false,
           waiting_for_red_to_clear := false, moveTrack := none }

/-- RedCrane.reset (crane.py:1060-1072). -/
def Crane.reset_red (c : Crane) : Crane :=
  let c := c.reset_base
  { c with target_box := none, departure_times := [], from_rightmost := false,
           moveTrack := none }

/-- The per-tick interpolation shape shared by every movement state
(crane.py:602-617 and its per-state clones): on the first moving tick the
start position and total time (already-decremented action_timer + dt) are
recorded, then progress = 1 - action_timer / total drives a linear
interpolation from the recorded start to the target. -/
def Crane.moveToward (c : Crane) (dt tx ty : ℚ) : Crane :=
  let track := match c.moveTrack with
    | none => (c.x, c.y, c.action_timer + dt)
    | some t => t
  let progress := 1 - c.action_timer / track.2.2
  { c with moveTrack := some track,
           x := track.1 + (tx - track.1) * progress,
           y := track.2.1 + (ty - track.2.1) * progress }

/-- The arrival shape shared by every movement state (e.g. crane.py:619-628):
snap to the target and delete the movement-tracking attributes. -/
def Crane.arriveAt (c : Crane) (tx ty : ℚ) : Crane :=
  { c with x := tx, y := ty, moveTrack := none }

/-- The recurring validity guard `self.target_i is None or self.target_i >=
len(self.scanner_list)` (crane.py:704, 758, 1169, 1236, 1282), returning the
indexed scanner when the guard passes. -/
def validIdx (t : Option ℕ) (l : List DScanner) : Option (ℕ × DScanner) :=
  match t with
  | none => none
  | some i =>
    match l[i]? with
    | some s => some (i, s)
    | none => none

/-- The analogous box guard `self.target_box is None or self.target_box >=
len(self.box_list)` (crane.py:1310, 1368, 1422, 1444, 1477, 1499, 1545, 1622,
1671). -/
def validBox (t : Option ℕ) (l : List Box) : Option (ℕ × Box) :=
  match t with
  | none => none
  | some i =>
    match l[i]? with
    | some bx => some (i, bx)
    | none => none

/-- The "Normal wait logic" tail of the blue WAIT branch (crane.py:573-585).
When no scanner is empty and the crane is away from home it heads home;
note the source binds nearest_empty_scanner to a local first and leaves
self.target_i untouched when it is None. -/
def blueWaitNormal (tt : TravelTime) (b : Crane) (scanners : List DScanner) :
    Crane :=
  match b.nearest_empty_scanner scanners with
  | some i =>
    { b with target_i := some i, state := .MOVE_TO_START,
             action_timer := tt b.x b.y PICKUP_X PICKUP_Y }
  | none =>
    if 1 < |b.x - b.initial_x| ∨ 1 < |b.y - b.initial_y| then
      { b with state := .MOVE_TO_HOME_EMPTY,
               action_timer := tt b.x b.y b.initial_x b.initial_y }
    else b

/-- The "Otherwise find next empty scanner" tail of the blue PICK_AT_START
RAISE completion (crane.py:684-699): retarget to the nearest empty scanner if
reachable, wait if blocked, head home with the diamond if none is empty. -/
def bluePickNextTarget (tt : TravelTime) (b r : Crane)
    (scanners : List DScanner) : Crane :=
  match b.nearest_empty_scanner scanners with
  | some i =>
    match scanners[i]? with
    | some s =>
      if b.can_move_to_x s.x_pos r then
        { b with target_i := some i, state := .MOVE_TO_SCANNER,
                 action_timer := tt b.x b.y s.x_pos s.y_pos }
      else
        { b with target_i := some i, state := .WAIT }
    | none => b  -- unreachable: the nearest index is in range
  | none =>
    { b with target_i := none, state := .RETURN_TO_HOME_WITH_DIAMOND,
             action_timer := tt b.x b.y b.initial_x b.initial_y }

/-- BlueCrane.step (crane.py:537-1013): one tick of the loader.  Arguments
mirror the call blue_crane.step(dt, blue_crane, red_crane): b is self, r the
red crane (read-only for blue).  draws is the stream of pending
random.randint results consumed by DScanner.scan; the final diamond-patch
position update (crane.py:1009-1013) is rendering-only.  Returns the new
blue crane, the scanner list (mutated by the scan call in DROP_AT_SCANNER)
and the remaining draw stream. -/
def BlueCrane.step (tt : TravelTime) (dt : ℚ) (draws : List ℕ) (b r : Crane)
    (scanners : List DScanner) : Crane × List DScanner × List ℕ :=
  -- crane.py:546
  let b := { b with action_timer := max 0 (b.action_timer - dt) }
  match b.state with
  | .WAIT =>
    -- crane.py:548-585
    let redWaiting := r.state = .MOVE_OUT_OF_WAY_AFTER_RIGHT_PICKUP ∨
                      r.state = .WAIT_FOR_BLUE_TO_LOAD_RIGHT
    match scanners[1]? with
    | some s1 =>
      if redWaiting ∧ s1.state = .empty then
        if b.has_diamond then
          -- crane.py:557-563: go directly to the right scanner
          ({ b with target_i := some 1, state := .MOVE_TO_SCANNER,
                    action_timer := tt b.x b.y s1.x_pos s1.y_pos },
           scanners, draws)
        else
          -- crane.py:564-571: fetch a diamond first, remembering scanner 1
          ({ b with state := .MOVE_TO_START,
                    action_timer := tt b.x b.y PICKUP_X PICKUP_Y,
                    target_i := some 1 },
           scanners, draws)
      else
        (blueWaitNormal tt b scanners, scanners, draws)
    | none =>
      (blueWaitNormal tt b scanners, scanners, draws)
  | .MOVE_TO_START =>
    -- crane.py:587-633
    if b.should_yield_to r then
      ({ b with moveTrack := none,
                action_timer := tt b.x b.y PICKUP_X PICKUP_Y },
       scanners, draws)
    else if 0 < b.action_timer then
      (b.moveToward dt PICKUP_X PICKUP_Y, scanners, draws)
    else
      let b := b.arriveAt PICKUP_X PICKUP_Y
      ({ b with state := .PICK_AT_START, action_timer := b.lower_time,
                pick_phase := some .LOWER },
       scanners, draws)
  | .PICK_AT_START =>
    -- crane.py:635-699
    match b.pick_phase with
    | some .LOWER =>
      if b.action_timer ≤ 0 then
        ({ b with pick_phase := some .RAISE, action_timer := b.raise_time,
                  has_diamond := true },
         scanners, draws)
      else (b, scanners, draws)
    | some .RAISE =>
      if b.action_timer ≤ 0 then
        let b := { b with pick_phase := none }
        if b.waiting_for_red_to_clear ∧ b.has_diamond = true then
          -- crane.py:663-668
          ({ b with waiting_for_red_to_clear := false,
                    state := .MOVE_OUT_OF_WAY_AFTER_RIGHT_LOAD,
                    action_timer := tt b.x b.y b.initial_x b.initial_y },
           scanners, draws)
        else
          -- crane.py:671-681: priority to the right scanner while red waits.
          -- On the can_move_to_x failure the source's target_i := 1
          -- assignment is immediately overwritten at crane.py:684.
          let redWaiting := r.state = .MOVE_OUT_OF_WAY_AFTER_RIGHT_PICKUP ∨
                            r.state = .WAIT_FOR_BLUE_TO_LOAD_RIGHT
          match scanners[1]? with
          | some s1 =>
            if redWaiting ∧ s1.state = .empty ∧ b.can_move_to_x s1.x_pos r = true then
              ({ b with target_i := some 1, state := .MOVE_TO_SCANNER,
                        action_timer := tt b.x b.y s1.x_pos s1.y_pos },
               scanners, draws)
            else
              (bluePickNextTarget tt b r scanners, scanners, draws)
          | none =>
            (bluePickNextTarget tt b r scanners, scanners, draws)
      else (b, scanners, draws)
    | none => (b, scanners, draws)
  | .MOVE_TO_SCANNER =>
    -- crane.py:701-754
    match validIdx b.target_i scanners with
    | none =>
      ({ b with state := .RETURN_TO_START,
                action_timer := tt b.x b.y PICKUP_X PICKUP_Y },
       scanners, draws)
    | some (_, s) =>
      if b.should_yield_to r then
        ({ b with moveTrack := none,
                  action_timer := tt b.x b.y s.x_pos s.y_pos },
         scanners, draws)
      else if 0 < b.action_timer then
        (b.moveToward dt s.x_pos s.y_pos, scanners, draws)
      else
        let b := b.arriveAt s.x_pos s.y_pos
        ({ b with state := .DROP_AT_SCANNER, action_timer := b.lower_time,
                  drop_phase := some .LOWER },
         scanners, draws)
  | .DROP_AT_SCANNER =>
    -- crane.py:756-823
    match validIdx b.target_i scanners with
    | none =>
      ({ b with state := .RETURN_TO_START,
                action_timer := tt b.x b.y PICKUP_X PICKUP_Y },
       scanners, draws)
    | some (i, s) =>
      match b.drop_phase with
      | some .LOWER =>
        if b.action_timer ≤ 0 then
          -- crane.py:772-780: release the diamond and trigger the scan
          let scanners := scanners.set i (DScanner.scan (draws.headD 0) s)
          ({ b with drop_phase := some .RAISE, action_timer := b.raise_time,
                    has_diamond := false },
           scanners, draws.tail)
        else (b, scanners, draws)
      | some .RAISE =>
        if b.action_timer ≤ 0 then
          -- crane.py:788-823 (the prints there have no state effect)
          let b := { b with drop_phase := none,
                            scanners_loaded :=
                              if i ∈ b.scanners_loaded then b.scanners_loaded
                              else b.scanners_loaded ++ [i] }
          if i = 1 ∧ r.state = .WAIT_FOR_BLUE_TO_LOAD_RIGHT then
            ({ b with state := .RETURN_TO_START,
                      action_timer := tt b.x b.y PICKUP_X PICKUP_Y,
                      waiting_for_red_to_clear := true },
             scanners, draws)
          else
            ({ b with state := .RETURN_TO_START,
                      action_timer := tt b.x b.y PICKUP_X PICKUP_Y },
             scanners, draws)
        else (b, scanners, draws)
      | none => (b, scanners, draws)
  | .RETURN_TO_START =>
    -- crane.py:824-879 (same shape as MOVE_TO_START)
    if b.should_yield_to r then
      ({ b with moveTrack := none,
                action_timer := tt b.x b.y PICKUP_X PICKUP_Y },
       scanners, draws)
    else if 0 < b.action_timer then
      (b.moveToward dt PICKUP_X PICKUP_Y, scanners, draws)
    else
      let b := b.arriveAt PICKUP_X PICKUP_Y
      ({ b with state := .PICK_AT_START, action_timer := b.lower_time,
                pick_phase := some .LOWER },
       scanners, draws)
  | .MOVE_OUT_OF_WAY_AFTER_RIGHT_LOAD =>
    -- crane.py:881-911: note there is no collision check on this path
    if 0 < b.action_timer then
      (b.moveToward dt b.initial_x b.initial_y, scanners, draws)
    else
      let b := b.arriveAt b.initial_x b.initial_y
      ({ b with state := .WAIT_AT_HOME, waiting_at_home := true },
       scanners, draws)
  | .RETURN_TO_HOME_WITH_DIAMOND =>
    -- crane.py:913-954
    if b.should_yield_to r then
      ({ b with moveTrack := none,
                action_timer := tt b.x b.y b.initial_x b.initial_y },
       scanners, draws)
    else if 0 < b.action_timer then
      (b.moveToward dt b.initial_x b.initial_y, scanners, draws)
    else
      let b := b.arriveAt b.initial_x b.initial_y
      ({ b with state := .WAIT_AT_HOME, waiting_at_home := true },
       scanners, draws)
  | .WAIT_AT_HOME =>
    -- crane.py:956-977
    let empties := idxInState .empty 0 scanners
    if empties ≠ [] then
      let b := { b with scanners_loaded :=
                          b.scanners_loaded.filter (fun j => j ∉ empties) }
      match b.nearest_empty_scanner scanners with
      | some i =>
        let b := { b with target_i := some i }
        match scanners[i]? with
        | some s =>
          if b.can_move_to_x s.x_pos r then
            ({ b with state := .MOVE_TO_SCANNER,
                      action_timer := tt b.x b.y s.x_pos s.y_pos,
                      waiting_at_home := false },
             scanners, draws)
          else (b, scanners, draws)
        | none => (b, scanners, draws)  -- unreachable: nearest index in range
      | none => ({ b with target_i := none }, scanners, draws)
    else (b, scanners, draws)
  | .MOVE_TO_HOME_EMPTY =>
    -- crane.py:979-1007: note there is no collision check on this path
    if 0 < b.action_timer then
      (b.moveToward dt b.initial_x b.initial_y, scanners, draws)
    else
      let b := b.arriveAt b.initial_x b.initial_y
      ({ b with state := .WAIT }, scanners, draws)
  | _ =>
    -- red-only states: the elif chain of BlueCrane.step has no branch for
    -- them, so the tick changes nothing beyond the timer decrement
    (b, scanners, draws)

/-- The predictive-scheduling loop of the red WAIT branch (crane.py:1097-1141):
for every scanning scanner, compute departure_time = current_time +
time_until_ready - travel_time - lower_time, keep the per-scanner minimum in
the departure_times dict, and depart (break) for the first scanner whose
stored departure time has arrived and whose approach passes both collision
checks.  The dict is read back after the update (crane.py:1114), so the
compared value is the stored minimum.  The WAIT-branch prints have no state
effect. -/
def redWaitScan (tt : TravelTime) (now : ℚ) (blue : Crane) :
    List (ℕ × DScanner) → Crane → Crane
  | [], r => r
  | (i, s) :: rest, r =>
    if s.state = .scanning then
      let travel_time := tt r.x r.y s.x_pos s.y_pos
      let departure_time := now + s.timer - travel_time - r.lower_time
      let dts :=
        match lookupDep r.departure_times i with
        | none => setDep r.departure_times i departure_time
        | some prev =>
          if departure_time < prev then setDep r.departure_times i departure_time
          else r.departure_times
      let r := { r with departure_times := dts }
      -- lookupDep dts i is some by construction; getD 0 is never the default
      if (lookupDep dts i).getD 0 ≤ now then
        if r.would_collide_with blue then redWaitScan tt now blue rest r
        else if !r.can_move_to_x s.x_pos blue then redWaitScan tt now blue rest r
        else
          { r with target_i := some i, target_box := s.target_box_id,
                   state := .MOVE_TO_SCANNER, action_timer := travel_time,
                   departure_times := popDep dts i,
                   from_rightmost := decide (i = 1) }
      else redWaitScan tt now blue rest r
    else redWaitScan tt now blue rest r

/-- The already-ready fallback of the red WAIT branch (crane.py:1143-1165):
only taken when target_i is still None, and then targets the NEAREST ready
scanner (nearest_ready_scanner), subject to the two collision checks. -/
def redWaitFallback (tt : TravelTime) (blue r : Crane)
    (scanners : List DScanner) : Crane :=
  if r.target_i = none then
    if idxInState .ready 0 scanners ≠ [] then
      match r.nearest_ready_scanner scanners with
      | some j =>
        match scanners[j]? with
        | some sj =>
          if r.would_collide_with blue then r
          else if !r.can_move_to_x sj.x_pos blue then r
          else
            { r with target_i := some j, target_box := sj.target_box_id,
                     state := .MOVE_TO_SCANNER,
                     action_timer := tt r.x r.y sj.x_pos sj.y_pos,
                     from_rightmost := decide (j = 1) }
        | none => r  -- unreachable: the nearest index is in range
      | none => r
    else r
  else r

/-- The pickup-commit shape shared by the red crane's lowering states
(crane.py:1242-1256, 1266-1279 and 1327-1338): start raising with the
diamond, call DScanner.pickup on the target scanner, and set target_box from
the returned box id with the source's "defensive fallback" that re-reads
get_target_box from the already-mutated scanner. -/
def redPickupCommit (r : Crane) (i : ℕ) (s : DScanner)
    (scanners : List DScanner) : Crane × List DScanner :=
  let res := DScanner.pickup s
  let tb :=
    match res.1 with
    | some v => some v
    | none => res.2.target_box_id
  ({ r with pick_phase := some .RAISE, action_timer := r.raise_time,
            has_diamond := true, target_box := tb },
   scanners.set i res.2)

/-- Box drop-zone position for an optional box index.  The source indexes
box_list directly (e.g. crane.py:1305, 1392); a None or out-of-range index
would raise in Python and never occurs in the deployed configuration; the
model returns the junk position (0, 0) there. -/
def boxPosOf (boxes : List Box) (t : Option ℕ) : ℚ × ℚ :=
  match t with
  | some i =>
    match boxes[i]? with
    | some bx => bx.get_position
    | none => (0, 0)
  | none => (0, 0)

/-- The recurring transition to RETURN_HOME with a fresh travel time home
(crane.py:1170-1171 and its many clones). -/
def redGoHome (tt : TravelTime) (r : Crane) : Crane :=
  { r with state := .RETURN_HOME,
           action_timer := tt r.x r.y r.initial_x r.initial_y }

/-- The "Try to go to box" tail of the red PICK_AT_SCANNER retry block
(crane.py:1309-1320): go to the box if it is valid and the blue crane is not
too close, otherwise keep waiting in place. -/
def redRetryBox (tt : TravelTime) (b r : Crane) (boxes : List Box) : Crane :=
  match validBox r.target_box boxes with
  | some p =>
    if !r.would_collide_with b then
      { r with state := .MOVE_TO_BOX,
               action_timer := tt r.x r.y p.2.x_pos p.2.y_pos }
    else r
  | none => r

/-- The "Default behavior: go to box" tail of the red PICK_AT_SCANNER RAISE
completion (crane.py:1396-1412): unlike redRetryBox, an invalid box sends
the crane home. -/
def redRaiseBoxOrHome (tt : TravelTime) (b r : Crane) (boxes : List Box) :
    Crane :=
  match validBox r.target_box boxes with
  | some p =>
    if !r.would_collide_with b then
      { r with state := .MOVE_TO_BOX,
               action_timer := tt r.x r.y p.2.x_pos p.2.y_pos }
    else r
  | none => redGoHome tt r

/-- RedCrane.step (crane.py:1083-1807): one tick of the unloader.  Arguments
mirror red_crane.step(dt, blue_crane, red_crane): r is self, b the blue
crane (which red mutates in two places: removing index 1 from
scanners_loaded at crane.py:1355-1357 and setting waiting_for_red_to_clear
at crane.py:1491-1492), so the result carries (blue, red, scanners, boxes).
The final diamond-patch update (crane.py:1803-1807) is rendering-only. -/
def RedCrane.step (tt : TravelTime) (dt : ℚ) (b r : Crane)
    (scanners : List DScanner) (boxes : List Box) :
    Crane × Crane × List DScanner × List Box :=
  -- crane.py:1092-1095
  let r := { r with action_timer := max 0 (r.action_timer - dt),
                    t_elapsed := r.t_elapsed + dt }
  let current_time := r.t_elapsed
  match r.state with
  | .WAIT =>
    -- crane.py:1097-1165
    let r := redWaitScan tt current_time b scanners.enum r
    (b, redWaitFallback tt b r scanners, scanners, boxes)
  | .MOVE_TO_SCANNER =>
    -- crane.py:1167-1233
    match validIdx r.target_i scanners with
    | none => (b, redGoHome tt r, scanners, boxes)
    | some (_, s) =>
      if r.should_yield_to b then
        (b, { r with moveTrack := none,
                     action_timer := tt r.x r.y s.x_pos s.y_pos },
         scanners, boxes)
      else if 0 < r.action_timer then
        (b, r.moveToward dt s.x_pos s.y_pos, scanners, boxes)
      else
        let r := r.arriveAt s.x_pos s.y_pos
        -- crane.py:1220-1233; the "occupied" alternative in the source's
        -- membership test is not a state DScanner can take
        match s.state with
        | .scanning =>
          (b, { r with state := .LOWER_FOR_PICKUP, action_timer := r.lower_time,
                       pick_phase := some .LOWER }, scanners, boxes)
        | .ready =>
          (b, { r with state := .PICK_AT_SCANNER, action_timer := r.lower_time,
                       pick_phase := some .LOWER }, scanners, boxes)
        | .empty => (b, redGoHome tt r, scanners, boxes)
  | .LOWER_FOR_PICKUP =>
    -- crane.py:1235-1279 (the two ready-commit paths are syntactically
    -- duplicated in the source and both embedded by redPickupCommit)
    match validIdx r.target_i scanners with
    | none => (b, redGoHome tt r, scanners, boxes)
    | some (i, s) =>
      if s.state = .ready ∧ r.action_timer ≤ 0 then
        let pc := redPickupCommit r i s scanners
        (b, { pc.1 with state := .PICK_AT_SCANNER }, pc.2, boxes)
      else if r.action_timer ≤ 0 then
        if s.state = .ready then
          let pc := redPickupCommit r i s scanners
          (b, { pc.1 with state := .PICK_AT_SCANNER }, pc.2, boxes)
        else (b, r, scanners, boxes)   -- hold at the bottom until ready
      else (b, r, scanners, boxes)
  | .PICK_AT_SCANNER =>
    -- crane.py:1281-1412
    match validIdx r.target_i scanners with
    | none => (b, redGoHome tt r, scanners, boxes)
    | some (i, s) =>
      if r.action_timer ≤ 0 ∧ r.pick_phase = none then
        -- crane.py:1287-1320: finished picking earlier but was blocked
        let r := if r.target_box = none then { r with target_box := some 0 } else r
        if r.from_rightmost = false then
          match scanners[1]? with
          | some s1 =>
            if (s1.state = .ready ∨ s1.state = .scanning) ∧
               r.would_collide_with b = false ∧
               r.can_move_to_x s1.x_pos b = true then
              let r := { r with target_i := some 1,
                                target_box := s1.target_box_id,
                                state := .MOVE_TO_BOX_THEN_RIGHT_SCANNER }
              let p := boxPosOf boxes r.target_box
              (b, { r with action_timer := tt r.x r.y p.1 p.2 }, scanners, boxes)
            else (b, redRetryBox tt b r boxes, scanners, boxes)
          | none => (b, redRetryBox tt b r boxes, scanners, boxes)
        else (b, redRetryBox tt b r boxes, scanners, boxes)
      else
        match r.pick_phase with
        | some .LOWER =>
          -- crane.py:1322-1338
          if r.action_timer ≤ 0 then
            let pc := redPickupCommit r i s scanners
            (b, pc.1, pc.2, boxes)
          else (b, r, scanners, boxes)
        | some .RAISE =>
          -- crane.py:1340-1412
          if r.action_timer ≤ 0 then
            let r := { r with pick_phase := none }
            let r := if r.target_box = none then { r with target_box := some 0 } else r
            if r.from_rightmost then
              -- crane.py:1354-1375
              let b := { b with scanners_loaded :=
                                  b.scanners_loaded.filter (fun j => j ≠ 1) }
              match scanners[1]? with
              | some s1 =>
                let fixed_waiting_x := s1.x_pos + 250
                let r := { r with state := .MOVE_OUT_OF_WAY_AFTER_RIGHT_PICKUP }
                match validBox r.target_box boxes with
                | some p =>
                  (b, { r with action_timer :=
                                 tt r.x r.y fixed_waiting_x p.2.y_pos },
                   scanners, boxes)
                | none =>
                  (b, { r with action_timer :=
                                 tt r.x r.y fixed_waiting_x s1.y_pos },
                   scanners, boxes)
              | none => (b, r, scanners, boxes)  -- source would raise IndexError
            else
              -- crane.py:1376-1412
              match scanners[1]? with
              | some s1 =>
                if (s1.state = .ready ∨ s1.state = .scanning) ∧
                   r.would_collide_with b = false ∧
                   r.can_move_to_x s1.x_pos b = true then
                  let r := { r with target_i := some 1,
                                    target_box := s1.target_box_id,
                                    state := .MOVE_TO_BOX_THEN_RIGHT_SCANNER }
                  let p := boxPosOf boxes r.target_box
                  (b, { r with action_timer := tt r.x r.y p.1 p.2 },
                   scanners, boxes)
                else (b, redRaiseBoxOrHome tt b r boxes, scanners, boxes)
              | none => (b, redRaiseBoxOrHome tt b r boxes, scanners, boxes)
          else (b, r, scanners, boxes)
        | none => (b, r, scanners, boxes)
  | .MOVE_OUT_OF_WAY_AFTER_RIGHT_PICKUP =>
    -- crane.py:1414-1460: fixed waiting X 250 mm right of scanner 1, Y from
    -- the target box row (fallback: scanner 1's Y); no collision check
    match scanners[1]? with
    | some s1 =>
      let fixed_waiting_x := s1.x_pos + 250
      let waiting_y :=
        match validBox r.target_box boxes with
        | some p => p.2.y_pos
        | none => s1.y_pos
      if 0 < r.action_timer then
        (b, r.moveToward dt fixed_waiting_x waiting_y, scanners, boxes)
      else
        let r := r.arriveAt fixed_waiting_x waiting_y
        (b, { r with state := .WAIT_FOR_BLUE_TO_LOAD_RIGHT }, scanners, boxes)
    | none => (b, r, scanners, boxes)  -- source would raise IndexError
  | .WAIT_FOR_BLUE_TO_LOAD_RIGHT =>
    -- crane.py:1462-1495
    let blue_is_out :=
      b.state = .WAIT_AT_HOME ∨ b.state = .MOVE_OUT_OF_WAY_AFTER_RIGHT_LOAD ∨
      b.state = .WAIT ∨ b.state = .MOVE_TO_HOME_EMPTY ∨
      b.x < PICKUP_X + r.safe_distance * 2
    if blue_is_out then
      match validBox r.target_box boxes with
      | some p =>
        ({ b with waiting_for_red_to_clear := true },
         { r with moveTrack := none, state := .MOVE_TO_BOX,
                  action_timer := tt r.x r.y p.2.x_pos p.2.y_pos },
         scanners, boxes)
      | none => (b, r, scanners, boxes)
    else (b, r, scanners, boxes)
  | .MOVE_TO_BOX_THEN_RIGHT_SCANNER =>
    -- crane.py:1497-1541
    match validBox r.target_box boxes with
    | none => (b, redGoHome tt r, scanners, boxes)
    | some p =>
      if r.should_yield_to b then
        (b, { r with moveTrack := none,
                     action_timer := tt r.x r.y p.2.x_pos p.2.y_pos },
         scanners, boxes)
      else if 0 < r.action_timer then
        (b, r.moveToward dt p.2.x_pos p.2.y_pos, scanners, boxes)
      else
        let r := r.arriveAt p.2.x_pos p.2.y_pos
        (b, { r with state := .DROP_AT_BOX_THEN_RIGHT_SCANNER,
                     action_timer := r.lower_time, drop_phase := some .LOWER },
         scanners, boxes)
  | .DROP_AT_BOX_THEN_RIGHT_SCANNER =>
    -- crane.py:1543-1619
    match validBox r.target_box boxes with
    | none => (b, redGoHome tt r, scanners, boxes)
    | some (tb, bx) =>
      if r.action_timer ≤ 0 ∧ r.drop_phase = none then
        -- crane.py:1552-1576: finished dropping earlier but was blocked
        match scanners[1]? with
        | some s1 =>
          if r.would_collide_with b = false ∧
             r.can_move_to_x s1.x_pos b = true then
            (b, { r with target_i := some 1, from_rightmost := true,
                         state := .MOVE_TO_SCANNER,
                         action_timer := tt r.x r.y s1.x_pos s1.y_pos },
             scanners, boxes)
          else if r.would_collide_with b = false then
            (b, redGoHome tt r, scanners, boxes)
          else (b, r, scanners, boxes)
        | none => (b, redGoHome tt r, scanners, boxes)
      else
        match r.drop_phase with
        | some .LOWER =>
          if r.action_timer ≤ 0 then
            let boxes := boxes.set tb bx.add_diamond
            (b, { r with drop_phase := some .RAISE, action_timer := r.raise_time,
                         has_diamond := false }, scanners, boxes)
          else (b, r, scanners, boxes)
        | some .RAISE =>
          -- crane.py:1592-1619; on a blocked path this variant goes home
          -- unconditionally (crane.py:1612-1615)
          if r.action_timer ≤ 0 then
            let r := { r with drop_phase := none }
            match scanners[1]? with
            | some s1 =>
              if r.would_collide_with b = false ∧
                 r.can_move_to_x s1.x_pos b = true then
                (b, { r with target_i := some 1, from_rightmost := true,
                             state := .MOVE_TO_SCANNER,
                             action_timer := tt r.x r.y s1.x_pos s1.y_pos },
                 scanners, boxes)
              else (b, redGoHome tt r, scanners, boxes)
            | none => (b, redGoHome tt r, scanners, boxes)
          else (b, r, scanners, boxes)
        | none => (b, r, scanners, boxes)
  | .MOVE_TO_BOX =>
    -- crane.py:1621-1668
    match validBox r.target_box boxes with
    | none => (b, redGoHome tt r, scanners, boxes)
    | some p =>
      if r.should_yield_to b then
        (b, { r with moveTrack := none,
                     action_timer := tt r.x r.y p.2.x_pos p.2.y_pos },
         scanners, boxes)
      else if 0 < r.action_timer then
        -- crane.py:1640-1654: tracking always recorded, interpolation only
        -- behind the explicit division-by-zero guard on the total time
        let track :=
          match r.moveTrack with
          | none => (r.x, r.y, r.action_timer + dt)
          | some t => t
        let r := { r with moveTrack := some track }
        if 0 < track.2.2 then
          let progress := 1 - r.action_timer / track.2.2
          (b, { r with x := track.1 + (p.2.x_pos - track.1) * progress,
                       y := track.2.1 + (p.2.y_pos - track.2.1) * progress },
           scanners, boxes)
        else (b, r, scanners, boxes)
      else
        let r := r.arriveAt p.2.x_pos p.2.y_pos
        (b, { r with state := .DROP_AT_BOX, action_timer := r.lower_time,
                     drop_phase := some .LOWER }, scanners, boxes)
  | .DROP_AT_BOX =>
    -- crane.py:1670-1770
    match validBox r.target_box boxes with
    | none => (b, redGoHome tt r, scanners, boxes)
    | some (tb, bx) =>
      if r.action_timer ≤ 0 ∧ r.drop_phase = none then
        -- crane.py:1678-1710: finished dropping earlier but was blocked
        if r.from_rightmost then
          match scanners[0]? with
          | some s0 =>
            if (s0.state = .ready ∨ s0.state = .scanning) ∧
               r.would_collide_with b = false ∧
               r.can_move_to_x s0.x_pos b = true then
              (b, { r with target_i := some 0, target_box := s0.target_box_id,
                           from_rightmost := false, state := .MOVE_TO_SCANNER,
                           action_timer := tt r.x r.y s0.x_pos s0.y_pos },
               scanners, boxes)
            else
              let r := { r with from_rightmost := false }
              if r.would_collide_with b = false then
                (b, redGoHome tt r, scanners, boxes)
              else (b, r, scanners, boxes)
          | none =>
            let r := { r with from_rightmost := false }
            if r.would_collide_with b = false then
              (b, redGoHome tt r, scanners, boxes)
            else (b, r, scanners, boxes)
        else
          if r.would_collide_with b = false then
            (b, redGoHome tt r, scanners, boxes)
          else (b, r, scanners, boxes)
      else
        match r.drop_phase with
        | some .LOWER =>
          if r.action_timer ≤ 0 then
            let boxes := boxes.set tb bx.add_diamond
            (b, { r with drop_phase := some .RAISE, action_timer := r.raise_time,
                         has_diamond := false }, scanners, boxes)
          else (b, r, scanners, boxes)
        | some .RAISE =>
          -- crane.py:1726-1770
          if r.action_timer ≤ 0 then
            let r := { r with drop_phase := none }
            if r.from_rightmost then
              match scanners[0]? with
              | some s0 =>
                if (s0.state = .ready ∨ s0.state = .scanning) ∧
                   r.would_collide_with b = false ∧
                   r.can_move_to_x s0.x_pos b = true then
                  (b, { r with target_i := some 0, target_box := s0.target_box_id,
                               from_rightmost := false, state := .MOVE_TO_SCANNER,
                               action_timer := tt r.x r.y s0.x_pos s0.y_pos },
                   scanners, boxes)
                else
                  let r := { r with from_rightmost := false }
                  if r.would_collide_with b = false then
                    (b, redGoHome tt r, scanners, boxes)
                  else (b, r, scanners, boxes)
              | none =>
                let r := { r with from_rightmost := false }
                if r.would_collide_with b = false then
                  (b, redGoHome tt r, scanners, boxes)
                else (b, r, scanners, boxes)
            else
              if r.would_collide_with b = false then
                (b, redGoHome tt r, scanners, boxes)
              else (b, r, scanners, boxes)
          else (b, r, scanners, boxes)
        | none => (b, r, scanners, boxes)
  | .RETURN_HOME =>
    -- crane.py:1772-1801
    if r.should_yield_to b then
      (b, { r with moveTrack := none,
                   action_timer := tt r.x r.y r.initial_x r.initial_y },
       scanners, boxes)
    else if 0 < r.action_timer then
      (b, r.moveToward dt r.initial_x r.initial_y, scanners, boxes)
    else
      let r := r.arriveAt r.initial_x r.initial_y
      (b, { r with state := .WAIT }, scanners, boxes)
  | _ =>
    -- blue-only states: the elif chain of RedCrane.step has no branch for
    -- them, so the tick changes nothing beyond the timer and clock updates
    (b, r, scanners, boxes)

/-! ## Simulation controller (Ver3/RealisticTwoClawSim/simulation.py)

Class SimulationController.  Figure/axes/buttons/metrics text/side view are
rendering and UI only and omitted; the observable simulation state is
exactly the fields below. -/

/-- The simulation state owned by SimulationController (simulation.py:69-77
plus the scanner, box and crane objects it creates). -/
structure SimState where
  scanners : List DScanner
  boxes : List Box
  blue : Crane
  red : Crane
  t_elapsed : ℚ
  diamonds_delivered : ℕ
  diamonds_scanned : ℕ
  simulation_started : Bool
  total_ready_wait_time : ℚ
deriving DecidableEq

/-- Sum of box counts, sum(box.get_count() ...) (simulation.py:885). -/
def sumCounts (boxes : List Box) : ℕ :=
  boxes.foldl (fun a bx => a + bx.get_count) 0

/-- Sum of scans_done, sum(scanner.scans_done ...) (simulation.py:890). -/
def sumScans (scanners : List DScanner) : ℕ :=
  scanners.foldl (fun a s => a + s.scans_done) 0

/-- Number of scanners currently in the ready state, as accumulated by the
ready-wait loop (simulation.py:868-872). -/
def countReady (scanners : List DScanner) : ℕ :=
  (scanners.filter (fun s => decide (s.state = .ready))).length

/-- SimulationController.step_simulation (simulation.py:845-914): one tick.
In normal mode dt is scaled by SIM_SPEED_MULTIPLIER; the start-of-run latch
fires when the blue crane begins lowering for its first pickup; scanners
update first, then the ready-wait metric, then blue, then red; delivered and
scanned counters track the box/scanner sums monotonically; elapsed time
always advances in skip mode but only after the latch in normal mode.  Label,
metrics-display and side-view updates are rendering-only. -/
def step_simulation (tt : TravelTime) (skip_mode : Bool) (dt : ℚ)
    (draws : List ℕ) (S : SimState) : SimState × List ℕ :=
  let dt := if !skip_mode then dt * SIM_SPEED_MULTIPLIER else dt
  let started := S.simulation_started ||
    (decide (S.blue.state = .PICK_AT_START) &&
     decide (S.blue.pick_phase = some Phase.LOWER))
  let scanners := S.scanners.map (DScanner.update dt S.t_elapsed)
  let trw :=
    if started then S.total_ready_wait_time + (countReady scanners : ℚ) * dt
    else S.total_ready_wait_time
  let bs := BlueCrane.step tt dt draws S.blue S.red scanners
  let rs := RedCrane.step tt dt bs.1 S.red bs.2.1 S.boxes
  let delivered :=
    let c := sumCounts rs.2.2.2
    if  S.diamonds_delivered < c then c else S.diamonds_delivered
  let scanned :=
    let c := sumScans rs.2.2.1
    if S.diamonds_scanned < c then c else S.diamonds_scanned
  let t :=
    if skip_mode then S.t_elapsed + dt
    else if started then S.t_elapsed + dt else S.t_elapsed
  ({ scanners := rs.2.2.1, boxes := rs.2.2.2, blue := rs.1, red := rs.2.1,
     t_elapsed := t, diamonds_delivered := delivered,
     diamonds_scanned := scanned, simulation_started := started,
     total_ready_wait_time := trw },
   bs.2.2)

/-- SimulationController.cleanup_crane_tracking (simulation.py:244-262):
deletes the movement-tracking attributes of both cranes (the position and
diamond-patch redraws there are rendering-only). -/
def cleanup_crane_tracking (S : SimState) : SimState :=
  { S with blue := { S.blue with moveTrack := none },
           red := { S.red with moveTrack := none } }

/-- SimulationController.full_reset (simulation.py:215-242). -/
def full_reset (tt : TravelTime) (S : SimState) : SimState :=
  cleanup_crane_tracking
    { S with t_elapsed := 0, diamonds_delivered := 0, diamonds_scanned := 0,
             total_ready_wait_time := 0, simulation_started := false,
             scanners := S.scanners.map
               (fun s => { s.reset with scans_done := 0 }),
             boxes := S.boxes.map Box.reset,
             blue := S.blue.reset_blue tt,
             red := S.red.reset_red }

/-- The movement-state list of cleanup_after_skip (simulation.py:272-274);
note it omits RETURN_TO_HOME_WITH_DIAMOND and MOVE_TO_HOME_EMPTY, unlike the
crane's own movement_states list. -/
def isCleanupMovementState : CraneState → Bool
  | .MOVE_TO_SCANNER => true
  | .MOVE_TO_BOX => true
  | .RETURN_HOME => true
  | .MOVE_TO_START => true
  | .RETURN_TO_START => true
  | .MOVE_OUT_OF_WAY_AFTER_RIGHT_PICKUP => true
  | .MOVE_OUT_OF_WAY_AFTER_RIGHT_LOAD => true
  | .MOVE_TO_BOX_THEN_RIGHT_SCANNER => true
  | _ => false

/-- The per-crane validation part of cleanup_after_skip
(simulation.py:270-286): a movement state with an expired timer is forced
back to WAIT, and expired cranes get stuck pick/drop phases cleared. -/
def cleanupCrane (c : Crane) : Crane :=
  let c := { c with moveTrack := none }
  let c :=
    if isCleanupMovementState c.state ∧ c.action_timer ≤ 0 then
      { c with state := .WAIT, action_timer := 0 }
    else c
  if c.action_timer ≤ 0 then
    { c with pick_phase := none, drop_phase := none }
  else c

/-- SimulationController.cleanup_after_skip (simulation.py:264-326): crane
validation, then the post-skip collision check - if the cranes ended the
skip closer than D_CLAW_SAFE_DISTANCE (the source prints "ERROR: Collision
violation detected after skip!"), both cranes are teleported to their home
positions, forced to WAIT and stripped of any carried diamond. -/
def cleanup_after_skip (S : SimState) : SimState :=
  let blue := cleanupCrane S.blue
  let red := cleanupCrane S.red
  if |blue.x - red.x| < D_CLAW_SAFE_DISTANCE then
    { S with
        blue := { blue with x := BLUE_CRANE_HOME_X, y := BLUE_CRANE_HOME_Y,
                            state := .WAIT, action_timer := 0,
                            has_diamond := false },
        red := { red with x := RED_CRANE_HOME_X, y := RED_CRANE_HOME_Y,
                          state := .WAIT, action_timer := 0,
                          has_diamond := false } }
  else
    { S with blue := blue, red := red }

/-- The fast-forward loop of skip_to_time (simulation.py:143-177): step in
skip mode while t_elapsed < target and step_count < max_steps, running
cleanup_crane_tracking every 10000 steps.  The structural fuel argument
starts at max_steps, so the loop always stops by its own condition, never by
fuel exhaustion.  The periodic state snapshot, progress prints, slow-progress
warning and exception recovery (no exceptions arise in the model) are
control/IO only. -/
def skipLoop (tt : TravelTime) (target : ℚ) (max_steps : ℕ) :
    ℕ → ℕ → List ℕ → SimState → SimState × List ℕ
  | 0, _, draws, S => (S, draws)
  | fuel + 1, step_count, draws, S =>
    if S.t_elapsed < target ∧ step_count < max_steps then
      let st := step_simulation tt true DT draws S
      let sc := step_count + 1
      let S' := if sc % 10000 = 0 then cleanup_crane_tracking st.1 else st.1
      skipLoop tt target max_steps fuel sc st.2 S'
    else (S, draws)

/-- SimulationController.skip_to_time (simulation.py:86-213), with the
textbox parse replaced by the target argument: reject negative targets,
always full_reset, return immediately for targets at most the 0.01 epsilon,
otherwise fast-forward with skip-mode steps of size DT up to
int(target / DT) + 10000 steps and finish with cleanup_after_skip.  The
pause-state bookkeeping and canvas redraws are UI only. -/
def skip_to_time (tt : TravelTime) (target : ℚ) (draws : List ℕ)
    (S : SimState) : SimState :=
  if target < 0 then S
  else
    let S := full_reset tt S
    if target ≤ 1 / 100 then S
    else
      let max_steps := (⌊target / DT⌋).toNat + 10000
      cleanup_after_skip (skipLoop tt target max_steps max_steps 0 draws S).1

/-- Normal stepping to a target time: animation_update
(simulation.py:920-924) runs step_simulation(config.DT, skip_mode=False)
once per frame; this iterates it until the displayed clock t_elapsed has
reached the target.  Fuel bounds the iteration count; callers supply enough
for the loop to have stopped on its own condition. -/
def runToTime (tt : TravelTime) (target : ℚ) :
    ℕ → List ℕ → SimState → SimState × List ℕ
  | 0, draws, S => (S, draws)
  | fuel + 1, draws, S =>
    if S.t_elapsed < target then
      let st := step_simulation tt false DT draws S
      runToTime tt target fuel st.2 st.1
    else (S, draws)

/-- BlueCrane.__init__ (crane.py:35-122 and 445-480): home position from
config, no diamond, and an immediate MOVE_TO_START with the travel time to
the pickup zone. -/
def BlueCrane.init (tt : TravelTime) : Crane :=
  { x := BLUE_CRANE_HOME_X, y := BLUE_CRANE_HOME_Y,
    initial_x := BLUE_CRANE_HOME_X, initial_y := BLUE_CRANE_HOME_Y,
    safe_distance := D_CLAW_SAFE_DISTANCE, lower_time := T_Z, raise_time := T_Z,
    state := .MOVE_TO_START,
    action_timer := tt BLUE_CRANE_HOME_X BLUE_CRANE_HOME_Y PICKUP_X PICKUP_Y,
    has_diamond := false, target_i := none, t_elapsed := 0,
    pick_phase := none, drop_phase := none, moveTrack := none, blue := true,
    scanners_loaded := [], waiting_at_home := false,
    waiting_for_red_to_clear := false, target_box := none,
    departure_times := [], from_rightmost := false }

/-- RedCrane.__init__ (crane.py:35-122 and 1029-1054): home position from
config, WAIT. -/
def RedCrane.init : Crane :=
  { x := RED_CRANE_HOME_X, y := RED_CRANE_HOME_Y,
    initial_x := RED_CRANE_HOME_X, initial_y := RED_CRANE_HOME_Y,
    safe_distance := D_CLAW_SAFE_DISTANCE, lower_time := T_Z, raise_time := T_Z,
    state := .WAIT, action_timer := 0,
    has_diamond := false, target_i := none, t_elapsed := 0,
    pick_phase := none, drop_phase := none, moveTrack := none, blue := false,
    scanners_loaded := [], waiting_at_home := false,
    waiting_for_red_to_clear := false, target_box := none,
    departure_times := [], from_rightmost := false }

/-- SimulationController.__init__ (simulation.py:26-84 with create_scanners,
create_boxes, create_cranes): the initial configuration. -/
def initState (tt : TravelTime) : SimState :=
  { scanners := get_scanner_positions.map (fun p => DScanner.init p.1 p.2),
    boxes := get_end_box_positions.enum.map
      (fun p => { box_id := p.1, x_pos := p.2.1, y_pos := p.2.2,
                  diamond_count := 0 }),
    blue := BlueCrane.init tt, red := RedCrane.init,
    t_elapsed := 0, diamonds_delivered := 0, diamonds_scanned := 0,
    simulation_started := false, total_ready_wait_time := 0 }

/-- A normal-mode run driven by an explicit sequence of step(dt) calls (the
spec's external step interface), threading the random-draw stream exactly as
step_simulation consumes it. -/
def runSim (tt : TravelTime) : List ℚ → List ℕ → SimState → SimState
  | [], _, S => S
  | dt :: dts, draws, S =>
    let st := step_simulation tt false dt draws S
    runSim tt dts st.2 st.1

/-- A second concrete travel-time instance (two ticks for every leg), used
only to instantiate closed counterexample statements. -/
def tt13 : TravelTime := fun _ _ _ _ => 1 / 30

/-- The spec's station invariant (spec section 8): a station's assigned sink
is non-null iff its state is not Empty. -/
def stationInv (s : DScanner) : Prop :=
  s.target_box_id ≠ none ↔ s.state ≠ ScannerState.empty

/-- A scanner mid-scan: the initial left scanner after one scan trigger with
draw 3.  Used by closed counterexample statements. -/
def busyScanner : DScanner := DScanner.scan 3 (DScanner.init SCANNER_1_X SCANNER_Y)

/-- Concrete scanner pair for the dispatcher counterexample: both ready, the
left (farther from the red crane's home) became ready at t = 5, the right
(nearer) at t = 10. -/
def c5Scanners : List DScanner :=
  [{ DScanner.init SCANNER_1_X SCANNER_Y with
       state := .ready, ready_time := some 5, target_box_id := some 2 },
   { DScanner.init SCANNER_2_X SCANNER_Y with
       state := .ready, ready_time := some 10, target_box_id := some 4 }]

/-- Concrete state for the separation counterexample: the blue crane, empty
handed, is at x = 0 heading home in MOVE_TO_HOME_EMPTY (a path with no
arbiter consultation) with one second of travel left; the red crane idles in
WAIT at x = -80 (a stale target_i from its previous trip keeps the
already-ready fallback inert, as after any completed delivery); both
scanners are ready, so the blue crane's WAIT logic indeed sends it home.
The crane separation is exactly D_CLAW_SAFE_DISTANCE. -/
def c1State : SimState :=
  { scanners :=
      [{ DScanner.init SCANNER_1_X SCANNER_Y with
           state := .ready, ready_time := some 5, target_box_id := some 2 },
       { DScanner.init SCANNER_2_X SCANNER_Y with
           state := .ready, ready_time := some 6, target_box_id := some 3 }],
    boxes := (initState ttConst).boxes,
    blue := { BlueCrane.init ttConst with
                x := 0, y := SCANNER_Y, state := .MOVE_TO_HOME_EMPTY,
                action_timer := 1 },
    red := { RedCrane.init with x := -80, target_i := some 0 },
    t_elapsed := 100, diamonds_delivered := 0, diamonds_scanned := 2,
    simulation_started := true, total_ready_wait_time := 0 }

/-- Concrete state for the determinism counterexample: the blue crane is at
the left scanner finishing the lowering phase of DROP_AT_SCANNER, so the
next tick triggers DScanner.scan and consumes one random draw. -/
def c2State : SimState :=
  { initState ttConst with
      blue := { BlueCrane.init ttConst with
                  x := SCANNER_1_X, y := SCANNER_Y, state := .DROP_AT_SCANNER,
                  drop_phase := some .LOWER, action_timer := 1 / 60,
                  target_i := some 0, has_diamond := true } }

/-! ## Theorems -/

/-- D_Z evaluates to 490/3 mm. -/
theorem D_Z_value : D_Z = 490 / 3 := by
  norm_num [D_Z, distance_with_time_mm, VMAX_CLAW_Z, A_CLAW_Z]

/-- The timeToTravel call that defines T_Z satisfies S_VMAX < D, i.e. it
takes the accelerate-to-vmax branch embedded by timeToTravelVmax. -/
theorem T_Z_takes_vmax_branch :
    (VMAX_CLAW_Z ^ 2 - 0 ^ 2) / (2 * A_CLAW_Z) < D_Z := by
  norm_num [D_Z_value, VMAX_CLAW_Z, A_CLAW_Z]

/-- T_Z evaluates to exactly 9/5 s (lowering time = raising time = 1.8 s). -/
theorem T_Z_value : T_Z = 9 / 5 := by
  norm_num [T_Z, timeToTravelVmax, D_Z_value, VMAX_CLAW_Z, A_CLAW_Z]

/-- C4 counterexample: invoking scan on a station that is scanning, and
pickup on the same station, both return normally - scan leaves the station
bit-for-bit unchanged and pickup returns the int 0 - instead of failing with
an InvalidTransition error; the run continues, so the claimed
fail-fast/abort behaviour is absent from the code (the only effect is a
console print). -/
theorem C4_counterexample :
    DScanner.scan 5 busyScanner = busyScanner ∧
    DScanner.pickup busyScanner = (some 0, busyScanner) := by
  decide

/-- C4 as amended: a scan invoked while the station is not Empty, and a
pickup invoked while it is not Ready, are silently ignored - each prints a
console diagnostic and returns immediately (pickup returning 0), leaving the
station unchanged and the run alive; no InvalidTransition error exists in
the code. -/
theorem C4_amended_invalid_ops_silently_ignored (s : DScanner) (d : ℕ) :
    (s.state ≠ .empty → DScanner.scan d s = s) ∧
    (s.state ≠ .ready → DScanner.pickup s = (some 0, s)) := by
  constructor
  · intro h
    unfold DScanner.scan
    rw [if_pos h]
  · intro h
    unfold DScanner.pickup
    rw [if_pos h]

/-- Witness for C4_amended_invalid_ops_silently_ignored at the concrete
mid-scan station busyScanner. -/
theorem C4_amended_witness :
    (busyScanner.state ≠ .empty ∧ DScanner.scan 7 busyScanner = busyScanner) ∧
    (busyScanner.state ≠ .ready ∧ DScanner.pickup busyScanner = (some 0, busyScanner)) :=
  ⟨⟨by decide, (C4_amended_invalid_ops_silently_ignored busyScanner 7).1 (by decide)⟩,
   ⟨by decide, (C4_amended_invalid_ops_silently_ignored busyScanner 7).2 (by decide)⟩⟩

/-- C8 counterexample: a station that went Ready under a dt that does not
divide the scan time keeps a negative timer; pickup leaves that timer
untouched, so the claim's "timer ... cleared" is false.  The station here is
reached by the real operations: init, scan with draw 3, then one update of
18.1 s at t = 20. -/
theorem C8_counterexample :
    (DScanner.update (181/10) 20 busyScanner).state = .ready ∧
    (DScanner.pickup (DScanner.update (181/10) 20 busyScanner)).2.timer ≠ 0 :=
  of_decide_eq_true (by with_unfolding_all rfl)

/-- C8 as amended: pickup on a Ready station returns the assigned sink index
and leaves the station Empty with ready_time and the sink assignment
cleared and scans_done incremented - but the timer field keeps its prior
value (it is not touched by pickup; only update and reset write it). -/
theorem C8_amended_pickup_on_ready (s : DScanner) (h : s.state = .ready) :
    DScanner.pickup s =
      (s.target_box_id,
       { s with state := .empty, ready_time := none, target_box_id := none,
                scans_done := s.scans_done + 1 }) := by
  unfold DScanner.pickup
  rw [if_neg (by simp [h])]

/-- Witness for C8_amended_pickup_on_ready at the concrete just-ready
station obtained by scanning and updating busyScanner. -/
theorem C8_amended_witness :
    (DScanner.update (181/10) 20 busyScanner).state = .ready ∧
    DScanner.pickup (DScanner.update (181/10) 20 busyScanner) =
      ((DScanner.update (181/10) 20 busyScanner).target_box_id,
       { DScanner.update (181/10) 20 busyScanner with
           state := .empty, ready_time := none, target_box_id := none,
           scans_done := (DScanner.update (181/10) 20 busyScanner).scans_done + 1 }) :=
  ⟨of_decide_eq_true (by with_unfolding_all rfl),
   C8_amended_pickup_on_ready (DScanner.update (181/10) 20 busyScanner)
     (of_decide_eq_true (by with_unfolding_all rfl))⟩

/-- C9: the station invariant - assigned sink non-null iff state is not
Empty - is preserved by every station operation: scan (with any draw),
update (with any dt and clock), pickup, and reset. -/
theorem C9_station_invariant_preserved (s : DScanner) (d : ℕ) (dt t : ℚ)
    (h : stationInv s) :
    stationInv (DScanner.scan d s) ∧ stationInv (DScanner.update dt t s) ∧
    stationInv (DScanner.pickup s).2 ∧ stationInv (DScanner.reset s) := by
  unfold stationInv at h ⊢
  refine ⟨?_, ?_, ?_, ?_⟩
  · unfold DScanner.scan
    by_cases hs : s.state = ScannerState.empty
    · rw [if_neg (by simp [hs])]
      simp
    · rw [if_pos hs]
      exact h
  · unfold DScanner.update
    by_cases hs : s.state = ScannerState.scanning
    · rw [if_pos hs]
      dsimp only
      split_ifs <;> simp_all
    · rw [if_neg hs]
      exact h
  · unfold DScanner.pickup
    by_cases hs : s.state = ScannerState.ready
    · rw [if_neg (by simp [hs])]
      simp
    · rw [if_pos (by simp [hs])]
      exact h
  · unfold DScanner.reset
    simp

/-- Witness for C9_station_invariant_preserved at the concrete mid-scan
station busyScanner. -/
theorem C9_witness :
    stationInv busyScanner ∧
    (stationInv (DScanner.scan 4 busyScanner) ∧
     stationInv (DScanner.update (1/60) 2 busyScanner) ∧
     stationInv (DScanner.pickup busyScanner).2 ∧
     stationInv (DScanner.reset busyScanner)) :=
  ⟨by unfold stationInv; decide,
   C9_station_invariant_preserved busyScanner 4 (1/60) 2
     (by unfold stationInv; decide)⟩

/-- C10: out-of-order station operations are atomic failures - a scan in a
non-Empty state and a pickup in a non-Ready state leave every station field
(state, timer, ready_time, target_box_id, scans_done) at its prior value. -/
theorem C10_wrong_state_atomicity (s : DScanner) (d : ℕ) :
    (s.state ≠ .empty →
      (DScanner.scan d s).state = s.state ∧
      (DScanner.scan d s).timer = s.timer ∧
      (DScanner.scan d s).ready_time = s.ready_time ∧
      (DScanner.scan d s).target_box_id = s.target_box_id ∧
      (DScanner.scan d s).scans_done = s.scans_done) ∧
    (s.state ≠ .ready →
      (DScanner.pickup s).2.state = s.state ∧
      (DScanner.pickup s).2.timer = s.timer ∧
      (DScanner.pickup s).2.ready_time = s.ready_time ∧
      (DScanner.pickup s).2.target_box_id = s.target_box_id ∧
      (DScanner.pickup s).2.scans_done = s.scans_done) := by
  constructor
  · intro h
    unfold DScanner.scan
    rw [if_pos h]
    exact ⟨rfl, rfl, rfl, rfl, rfl⟩
  · intro h
    unfold DScanner.pickup
    rw [if_pos h]
    exact ⟨rfl, rfl, rfl, rfl, rfl⟩

/-- C7: on the deployed pair of agents (blue loader, red unloader), the
deadlock priority relation is as the spec states - the agent without a
diamond has priority over the one carrying a diamond, and on equal diamond
status the blue (loader) agent wins - and in every case exactly one of the
two cranes has priority. -/
theorem C7_priority_total_order (b r : Crane) (hb : b.blue = true)
    (hr : r.blue = false) :
    (b.has_diamond = false → r.has_diamond = true →
       b.has_priority_over r = true ∧ r.has_priority_over b = false) ∧
    (b.has_diamond = true → r.has_diamond = false →
       r.has_priority_over b = true ∧ b.has_priority_over r = false) ∧
    (b.has_diamond = r.has_diamond →
       b.has_priority_over r = true ∧ r.has_priority_over b = false) ∧
    (b.has_priority_over r = !(r.has_priority_over b)) := by
  unfold Crane.has_priority_over
  cases hbd : b.has_diamond <;> cases hrd : r.has_diamond <;>
    simp [hb, hr, hbd, hrd]

/-- Witness for C7_priority_total_order at the two initial cranes (both
without a diamond, so the tie-break applies and blue has priority). -/
theorem C7_witness :
    (BlueCrane.init ttConst).blue = true ∧ RedCrane.init.blue = false ∧
    (BlueCrane.init ttConst).has_diamond = RedCrane.init.has_diamond ∧
    ((BlueCrane.init ttConst).has_priority_over RedCrane.init = true ∧
     RedCrane.init.has_priority_over (BlueCrane.init ttConst) = false) :=
  ⟨rfl, rfl, rfl,
   (C7_priority_total_order (BlueCrane.init ttConst) RedCrane.init rfl rfl).2.2.1 rfl⟩

/-- Champion-fold specification: the foldl inside minByKey returns an element
of the champion-plus-tail list, and its key is minimal over that list
(Python min keeps the first champion on ties because the replacement test is
strict). -/
theorem minFold_spec (key : ℕ → ℚ) (rest : List ℕ) :
    ∀ i : ℕ,
      (rest.foldl (fun best j => if key j < key best then j else best) i ∈ i :: rest) ∧
      (∀ j ∈ i :: rest,
        key (rest.foldl (fun best j => if key j < key best then j else best) i) ≤ key j) := by
  induction rest with
  | nil =>
    intro i
    refine ⟨List.mem_singleton_self i, ?_⟩
    intro j hj
    rw [List.mem_singleton] at hj
    subst hj
    exact le_refl _
  | cons a rest ih =>
    intro i
    obtain ⟨hmem, hmin⟩ := ih (if key a < key i then a else i)
    constructor
    · simp only [List.foldl_cons]
      by_cases hk : key a < key i
      · rw [if_pos hk] at hmem ⊢
        rcases List.mem_cons.mp hmem with h | h
        · rw [h]
          exact List.mem_cons_of_mem i (List.mem_cons_self a rest)
        · exact List.mem_cons_of_mem i (List.mem_cons_of_mem a h)
      · rw [if_neg hk] at hmem ⊢
        rcases List.mem_cons.mp hmem with h | h
        · rw [h]
          exact List.mem_cons_self i (a :: rest)
        · exact List.mem_cons_of_mem i (List.mem_cons_of_mem a h)
    · intro j hj
      simp only [List.foldl_cons]
      by_cases hk : key a < key i
      · rw [if_pos hk] at hmin ⊢
        rcases List.mem_cons.mp hj with hj | hj
        · subst hj
          exact le_trans (hmin a (List.mem_cons_self a rest)) (le_of_lt hk)
        · rcases List.mem_cons.mp hj with hj | hj
          · subst hj
            exact hmin j (List.mem_cons_self j rest)
          · exact hmin j (List.mem_cons_of_mem a hj)
      · rw [if_neg hk] at hmin ⊢
        rcases List.mem_cons.mp hj with hj | hj
        · subst hj
          exact hmin j (List.mem_cons_self j rest)
        · rcases List.mem_cons.mp hj with hj | hj
          · subst hj
            exact le_trans (hmin i (List.mem_cons_self i rest)) (le_of_not_lt hk)
          · exact hmin j (List.mem_cons_of_mem i hj)

/-- minByKey returns a member of minimal key. -/
theorem minByKey_spec (key : ℕ → ℚ) (l : List ℕ) (i : ℕ)
    (h : minByKey key l = some i) : i ∈ l ∧ ∀ j ∈ l, key i ≤ key j := by
  cases l with
  | nil => simp [minByKey] at h
  | cons a rest =>
    unfold minByKey at h
    injection h with h
    subst h
    exact minFold_spec key rest a

/-- Membership in idxInState: exactly the offsets of list entries in the
target state, shifted by the start index. -/
theorem mem_idxInState (target : ScannerState) :
    ∀ (l : List DScanner) (k i : ℕ),
      i ∈ idxInState target k l ↔
        ∃ j s, i = k + j ∧ l[j]? = some s ∧ s.state = target := by
  intro l
  induction l with
  | nil =>
    intro k i
    simp [idxInState]
  | cons a rest ih =>
    intro k i
    unfold idxInState
    by_cases ha : a.state = target
    · rw [if_pos ha]
      simp only [List.mem_cons]
      constructor
      · rintro (rfl | hmem)
        · exact ⟨0, a, by omega, by simp, ha⟩
        · obtain ⟨j, s, rfl, hget, hst⟩ := (ih (k + 1) i).mp hmem
          exact ⟨j + 1, s, by omega, by simpa using hget, hst⟩
      · rintro ⟨j, s, rfl, hget, hst⟩
        cases j with
        | zero =>
          left
          omega
        | succ j =>
          right
          refine (ih (k + 1) (k + (j + 1))).mpr ⟨j, s, by omega, by simpa using hget, hst⟩
    · rw [if_neg ha]
      constructor
      · intro hmem
        obtain ⟨j, s, rfl, hget, hst⟩ := (ih (k + 1) i).mp hmem
        exact ⟨j + 1, s, by omega, by simpa using hget, hst⟩
      · rintro ⟨j, s, rfl, hget, hst⟩
        cases j with
        | zero =>
          simp only [List.getElem?_cons_zero, Option.some.injEq] at hget
          subst hget
          exact absurd hst ha
        | succ j =>
          exact (ih (k + 1) (k + (j + 1))).mpr ⟨j, s, by omega, by simpa using hget, hst⟩

/-- C5 as amended: when the Ver3 dispatcher's already-ready fallback selects
a station, it selects a Ready station whose (squared) 2D distance from the
unloader's current position is minimal among all Ready stations - the
nearest Ready station, not the one with the earliest became-ready
timestamp. -/
theorem C5_amended_nearest_selection (c : Crane) (scanners : List DScanner)
    (i : ℕ) (h : c.nearest_ready_scanner scanners = some i) :
    (∃ s, scanners[i]? = some s ∧ s.state = .ready) ∧
    ∀ j s', scanners[j]? = some s' → s'.state = .ready →
      scannerKey c.x c.y scanners i ≤ scannerKey c.x c.y scanners j := by
  unfold Crane.nearest_ready_scanner at h
  obtain ⟨hmem, hmin⟩ := minByKey_spec _ _ _ h
  constructor
  · obtain ⟨j, s, hij, hget, hst⟩ := (mem_idxInState .ready scanners 0 i).mp hmem
    refine ⟨s, ?_, hst⟩
    have : i = j := by omega
    rwa [this]
  · intro j s' hget hst
    exact hmin j ((mem_idxInState .ready scanners 0 j).mpr ⟨j, s', by omega, hget, hst⟩)

/-- Witness for C5_amended_nearest_selection on the concrete two-ready-station
configuration c5Scanners with the red crane at its home position. -/
theorem C5_amended_witness :
    RedCrane.init.nearest_ready_scanner c5Scanners = some 1 ∧
    ((∃ s, c5Scanners[1]? = some s ∧ s.state = .ready) ∧
     ∀ j s', c5Scanners[j]? = some s' → s'.state = .ready →
       scannerKey RedCrane.init.x RedCrane.init.y c5Scanners 1 ≤
       scannerKey RedCrane.init.x RedCrane.init.y c5Scanners j) :=
  ⟨of_decide_eq_true (by with_unfolding_all rfl),
   C5_amended_nearest_selection RedCrane.init c5Scanners 1
     (of_decide_eq_true (by with_unfolding_all rfl))⟩

/-- C5 counterexample: with both stations Ready - station 0 since t = 5,
station 1 only since t = 10 - and the idle unloader at its home on the
right, one dispatcher tick commits to station 1 (the nearest), not to
station 0 (the first-come-first-served choice the claim requires). -/
theorem C5_counterexample :
    (RedCrane.step ttConst DT (BlueCrane.init ttConst) RedCrane.init c5Scanners
        (initState ttConst).boxes).2.1.target_i = some 1 ∧
    c5Scanners.map (fun s => s.ready_time) = [some 5, some 10] ∧
    c5Scanners.map (fun s => s.state) = [ScannerState.ready, ScannerState.ready] :=
  of_decide_eq_true (by with_unfolding_all rfl)

/-- The already-ready fallback never touches the departure_times dict. -/
theorem redWaitFallback_departures (tt : TravelTime) (b r : Crane)
    (scanners : List DScanner) :
    (redWaitFallback tt b r scanners).departure_times = r.departure_times := by
  unfold redWaitFallback
  repeat' split
  all_goals rfl

/-- C6: one dispatcher tick from WAIT with a fresh prediction table stores,
for every scanning station, exactly the departure time
now + remainingTime - travelTime(currentPos, stationPos) - loweringTime,
where now is the clock after this tick's advance - provided no stored
departure time has already arrived (otherwise the crane departs instead).
Stated on the deployed two-station configuration, for an arbitrary
travel-time oracle. -/
theorem C6_departure_time_formula (tt : TravelTime) (dt : ℚ) (b r : Crane)
    (s0 s1 : DScanner) (boxes : List Box)
    (hw : r.state = .WAIT)
    (hfresh : r.departure_times = [])
    (h0 : s0.state = .scanning →
      r.t_elapsed + dt <
        r.t_elapsed + dt + s0.timer - tt r.x r.y s0.x_pos s0.y_pos - r.lower_time)
    (h1 : s1.state = .scanning →
      r.t_elapsed + dt <
        r.t_elapsed + dt + s1.timer - tt r.x r.y s1.x_pos s1.y_pos - r.lower_time) :
    (s0.state = .scanning →
      lookupDep (RedCrane.step tt dt b r [s0, s1] boxes).2.1.departure_times 0 =
        some (r.t_elapsed + dt + s0.timer - tt r.x r.y s0.x_pos s0.y_pos - r.lower_time)) ∧
    (s1.state = .scanning →
      lookupDep (RedCrane.step tt dt b r [s0, s1] boxes).2.1.departure_times 1 =
        some (r.t_elapsed + dt + s1.timer - tt r.x r.y s1.x_pos s1.y_pos - r.lower_time)) := by
  obtain ⟨x, y, ix, iy, sd, lt', rt, st, at', hd, ti, te, pp, dp, mt, bl, sl,
    wah, wfr, tb, dts, fr⟩ := r
  dsimp only at hw hfresh h0 h1 ⊢
  subst hw
  subst hfresh
  unfold RedCrane.step
  dsimp only [List.enum, List.enumFrom]
  rw [redWaitFallback_departures]
  have e00 : (((0 : ℕ) = 0)) = True := by simp
  have e01 : (((0 : ℕ) = 1)) = False := by simp
  have e10 : (((1 : ℕ) = 0)) = False := by simp
  have e11 : (((1 : ℕ) = 1)) = True := by simp
  unfold redWaitScan
  by_cases hs0 : s0.state = ScannerState.scanning
  · rw [if_pos hs0]
    dsimp only [lookupDep, setDep]
    simp only [Nat.reduceAdd, e00, e01, e10, e11, if_true, if_false,
      Option.getD_some]
    rw [if_neg (not_le.mpr (h0 hs0))]
    unfold redWaitScan
    by_cases hs1 : s1.state = ScannerState.scanning
    · rw [if_pos hs1]
      dsimp only [lookupDep, setDep]
      simp only [Nat.reduceAdd, e00, e01, e10, e11, if_true, if_false,
        Option.getD_some]
      rw [if_neg (not_le.mpr (h1 hs1))]
      unfold redWaitScan
      constructor
      · intro _
        simp only [lookupDep, Nat.reduceAdd, e00, e01, e10, e11, if_true, if_false]
      · intro _
        simp only [lookupDep, Nat.reduceAdd, e00, e01, e10, e11, if_true, if_false]
    · rw [if_neg hs1]
      unfold redWaitScan
      constructor
      · intro _
        simp only [lookupDep, Nat.reduceAdd, e00, e01, e10, e11, if_true, if_false]
      · intro hs1'
        exact absurd hs1' hs1
  · rw [if_neg hs0]
    unfold redWaitScan
    by_cases hs1 : s1.state = ScannerState.scanning
    · rw [if_pos hs1]
      dsimp only [lookupDep, setDep]
      simp only [Nat.reduceAdd, e00, e01, e10, e11, if_true, if_false,
        Option.getD_some]
      rw [if_neg (not_le.mpr (h1 hs1))]
      unfold redWaitScan
      constructor
      · intro hs0'
        exact absurd hs0' hs0
      · intro _
        simp only [lookupDep, Nat.reduceAdd, e00, e01, e10, e11, if_true, if_false]
    · rw [if_neg hs1]
      unfold redWaitScan
      constructor
      · intro hs0'
        exact absurd hs0' hs0
      · intro hs1'
        exact absurd hs1' hs1

/-- Witness for C6_departure_time_formula: the initial red crane, one
scanning station (busyScanner, 18 s remaining) and one empty station; the
stored departure time for station 0 after one WAIT tick is exactly the
formula value. -/
theorem C6_witness :
    busyScanner.state = .scanning ∧
    lookupDep (RedCrane.step ttConst DT (BlueCrane.init ttConst) RedCrane.init
        [busyScanner, DScanner.init SCANNER_2_X SCANNER_Y]
        (initState ttConst).boxes).2.1.departure_times 0 =
      some (RedCrane.init.t_elapsed + DT + busyScanner.timer -
            ttConst RedCrane.init.x RedCrane.init.y busyScanner.x_pos busyScanner.y_pos -
            RedCrane.init.lower_time) :=
  ⟨of_decide_eq_true (by with_unfolding_all rfl),
   (C6_departure_time_formula ttConst DT (BlueCrane.init ttConst) RedCrane.init
      busyScanner (DScanner.init SCANNER_2_X SCANNER_Y) (initState ttConst).boxes
      rfl rfl
      (fun _ => of_decide_eq_true (by with_unfolding_all rfl))
      (fun hcon => absurd hcon (of_decide_eq_true (by with_unfolding_all rfl)))).1
     (of_decide_eq_true (by with_unfolding_all rfl))⟩

/-- C1: evaluation of the claimed separation invariant at the failing state
c1State - the cranes start this tick exactly D_CLAW_SAFE_DISTANCE apart,
and after one step_simulation tick (the blue crane interpolating home on the
checkless MOVE_TO_HOME_EMPTY path while the red crane idles) they are
strictly closer than D_CLAW_SAFE_DISTANCE: the step function does not
maintain the minimum-separation invariant. -/
theorem C1_separation_violated_by_step :
    D_CLAW_SAFE_DISTANCE ≤ |c1State.blue.x - c1State.red.x| ∧
    |(step_simulation ttConst false DT [] c1State).1.blue.x -
      (step_simulation ttConst false DT [] c1State).1.red.x| < D_CLAW_SAFE_DISTANCE :=
  of_decide_eq_true (by with_unfolding_all rfl)

/-- C2 counterexample: two runs from the identical configuration c2State
with the identical single step(DT) call differ in observable state, because
the station's sink assignment comes from the Python global random module
(modelled as the draw stream), which is not part of the configuration: with
draw 3 the loaded station's assigned sink is 3, with draw 5 it is 5. -/
theorem C2_counterexample :
    (step_simulation ttConst false DT [3] c2State).1 ≠
    (step_simulation ttConst false DT [5] c2State).1 :=
  of_decide_eq_true (by with_unfolding_all rfl)

/-- C2 as amended: the simulation is deterministic once the random draws are
included in the configuration - two runs with equal initial states, equal
step(dt) sequences and equal draw streams produce equal observable states at
every tick (every prefix length k).  The nondeterminism refuted by
C2_counterexample is exactly the unseeded random sink draw. -/
theorem C2_amended_determinism (tt : TravelTime) (S1 S2 : SimState)
    (dts1 dts2 : List ℚ) (ds1 ds2 : List ℕ)
    (hS : S1 = S2) (hdt : dts1 = dts2) (hds : ds1 = ds2) :
    ∀ k : ℕ, runSim tt (dts1.take k) ds1 S1 = runSim tt (dts2.take k) ds2 S2 := by
  subst hS
  subst hdt
  subst hds
  intro k
  rfl

/-- Witness for C2_amended_determinism on a concrete two-tick run from
c2State with draw stream [3]. -/
theorem C2_amended_witness :
    runSim ttConst ([DT, DT].take 2) [3] c2State =
      runSim ttConst ([DT, DT].take 2) [3] c2State :=
  C2_amended_determinism ttConst c2State c2State [DT, DT] [DT, DT] [3] [3]
    rfl rfl rfl 2

/-- C3 counterexample: seeking to T = DT (one tick) does not reproduce the
normally-stepped state at displayed time T.  skip_to_time advances the
clock on every step, so it stops after one tick with the blue crane one
interpolation step from home (x = -160 under the two-tick travel oracle
tt13); normal stepping holds the clock at 0 until the blue crane starts its
first pickup, so by the time the displayed clock reaches DT the blue crane
has already arrived at the pickup zone (x = 0). -/
theorem C3_counterexample :
    (skip_to_time tt13 (1/60) [] (initState tt13)).blue.x ≠
    (runToTime tt13 (1/60) 10 [] (initState tt13)).1.blue.x :=
  of_decide_eq_true (by with_unfolding_all rfl)

/-- C3 as amended: a skip-mode tick performs exactly the same transition as
a normal-mode tick on every component of the state - cranes, stations,
sinks, counters, metric and consumed draws - except the elapsed-time
counter: skip mode always advances it by dt, while normal mode advances it
only once the simulation-started latch holds.  (With the deployed
SIM_SPEED_MULTIPLIER of 1 the two modes also agree on the physics
timestep.)  Bit-for-bit equality of seek and normal stepping at a common
displayed time fails only because of this clock difference, as
C3_counterexample shows. -/
theorem C3_amended_skip_vs_normal_step (tt : TravelTime) (dt : ℚ)
    (draws : List ℕ) (S : SimState) :
    (step_simulation tt true dt draws S).1.scanners =
      (step_simulation tt false dt draws S).1.scanners ∧
    (step_simulation tt true dt draws S).1.boxes =
      (step_simulation tt false dt draws S).1.boxes ∧
    (step_simulation tt true dt draws S).1.blue =
      (step_simulation tt false dt draws S).1.blue ∧
    (step_simulation tt true dt draws S).1.red =
      (step_simulation tt false dt draws S).1.red ∧
    (step_simulation tt true dt draws S).1.diamonds_delivered =
      (step_simulation tt false dt draws S).1.diamonds_delivered ∧
    (step_simulation tt true dt draws S).1.diamonds_scanned =
      (step_simulation tt false dt draws S).1.diamonds_scanned ∧
    (step_simulation tt true dt draws S).1.simulation_started =
      (step_simulation tt false dt draws S).1.simulation_started ∧
    (step_simulation tt true dt draws S).1.total_ready_wait_time =
      (step_simulation tt false dt draws S).1.total_ready_wait_time ∧
    (step_simulation tt true dt draws S).2 =
      (step_simulation tt false dt draws S).2 ∧
    (step_simulation tt true dt draws S).1.t_elapsed = S.t_elapsed + dt ∧
    (step_simulation tt false dt draws S).1.t_elapsed =
      (if (step_simulation tt false dt draws S).1.simulation_started = true
       then S.t_elapsed + dt else S.t_elapsed) := by
  refine ⟨?_, ?_, ?_, ?_, ?_, ?_, ?_, ?_, ?_, rfl, ?_⟩ <;>
    simp [step_simulation, SIM_SPEED_MULTIPLIER]

/-- Witness for C10_wrong_state_atomicity at the concrete mid-scan station
busyScanner. -/
theorem C10_witness :
    (busyScanner.state ≠ .empty ∧
      (DScanner.scan 6 busyScanner).state = busyScanner.state ∧
      (DScanner.scan 6 busyScanner).timer = busyScanner.timer) ∧
    (busyScanner.state ≠ .ready ∧
      (DScanner.pickup busyScanner).2.state = busyScanner.state ∧
      (DScanner.pickup busyScanner).2.timer = busyScanner.timer) :=
  ⟨⟨by decide, ((C10_wrong_state_atomicity busyScanner 6).1 (by decide)).1,
    ((C10_wrong_state_atomicity busyScanner 6).1 (by decide)).2.1⟩,
   ⟨by decide, ((C10_wrong_state_atomicity busyScanner 6).2 (by decide)).1,
    ((C10_wrong_state_atomicity busyScanner 6).2 (by decide)).2.1⟩⟩

end DiamondSim
